import Mathlib

/-!
Verification of the particle Christmas-tree installation (src/index.tsx,
src/constants.ts, src/types.ts).

Numeric values (JS numbers) are embedded as exact rationals; the claims
under verification are about the algorithms (interpolation algebra, bounds,
state transitions), not binary rounding.
-/

namespace Tree5

/-- TreeState enum (src/types.ts, src/index.tsx lines 10-13). -/
inductive TreeState where
  | CHAOS : TreeState
  | FORMED : TreeState
deriving DecidableEq, Repr

/-- GestureData (src/types.ts, src/index.tsx lines 15-19). -/
structure GestureData where
  state : TreeState
  handX : ℚ
  handY : ℚ
deriving DecidableEq, Repr

/-- Particle count constant (src/constants.ts line 48, src/index.tsx line 34). -/
def FOLIAGE_COUNT : ℕ := 15000

/-- Particle count constant (src/constants.ts line 49, src/index.tsx line 35). -/
def ORNAMENT_COUNT : ℕ := 400

/-- Particle count constant (src/constants.ts line 50, src/index.tsx line 36). -/
def FILLER_COUNT : ℕ := 1200

/-- Particle count constant (src/constants.ts line 51, src/index.tsx line 37). -/
def POLAROID_COUNT : ℕ := 30

/-- The updater App passes to setGestureData inside the geminiService.connect
onData callback (src/index.tsx lines 584-589):
newState = data.state === CHAOS ? CHAOS : prev.state, handX/handY copied
from the delivered data. -/
def onDataUpdate (prev : GestureData) (data : GestureData) : GestureData :=
  { state := if data.state = TreeState.CHAOS then TreeState.CHAOS else prev.state,
    handX := data.handX,
    handY := data.handY }

/-- App.toggleSimulation (src/index.tsx lines 599-601): spread prev, replacing
state by FORMED ? CHAOS : FORMED. -/
def toggleSimulation (prev : GestureData) : GestureData :=
  { prev with
    state := if prev.state = TreeState.FORMED then TreeState.CHAOS else TreeState.FORMED }

/-- Initial gestureData state in App (src/index.tsx line 571). -/
def initialGestureData : GestureData :=
  { state := TreeState.FORMED, handX := 0, handY := 0 }

/-- Initial value of the progress signal: useState(0) (src/index.tsx line 519). -/
def progressInit : ℚ := 0

/-- Target of the progress animation (src/index.tsx line 522):
target = state === CHAOS ? 1 : 0. -/
def progressTarget (s : TreeState) : ℚ :=
  if s = TreeState.CHAOS then 1 else 0

/-- One animation step of the progress signal (src/index.tsx lines 525-529):
diff = target - prev; if |diff| < 0.001 return target; else prev + diff * 0.05. -/
def progressStep (target : ℚ) (prev : ℚ) : ℚ :=
  let diff := target - prev
  if |diff| < 1/1000 then target else prev + diff * (1/20)

end Tree5

namespace Tree5

/-- C5: the particle ensemble sizes are the fixed constants
FOLIAGE_COUNT = 15000, ORNAMENT_COUNT = 400, FILLER_COUNT = 1200 and
POLAROID_COUNT = 30; the foliage ensemble alone has 15,000 particles and the
ensembles together have 16,630 >= 15,000 particles. -/
theorem C5_particle_counts :
    FOLIAGE_COUNT = 15000 ∧ ORNAMENT_COUNT = 400 ∧ FILLER_COUNT = 1200 ∧
    POLAROID_COUNT = 30 ∧
    15000 ≤ FOLIAGE_COUNT ∧
    FOLIAGE_COUNT + ORNAMENT_COUNT + FILLER_COUNT + POLAROID_COUNT = 16630 ∧
    15000 ≤ FOLIAGE_COUNT + ORNAMENT_COUNT + FILLER_COUNT + POLAROID_COUNT := by
  decide

/-- C1 counterexample: the claim that a gesture callback with state FORMED
makes the application state FORMED is false: with previous state CHAOS, a
delivered FORMED gesture leaves the state CHAOS (src/index.tsx line 586 keeps
prev.state unless the delivered state is CHAOS). -/
theorem C1_counterexample :
    ¬ (∀ prev data : GestureData, data.state = TreeState.FORMED →
        (onDataUpdate prev data).state = TreeState.FORMED) := by
  intro h
  have h2 := h ⟨TreeState.CHAOS, 0, 0⟩ ⟨TreeState.FORMED, 1/2, 1/2⟩ rfl
  simp [onDataUpdate] at h2

/-- C1 (amended): a gesture callback with state CHAOS makes the application
state CHAOS; a callback with state FORMED leaves the previous state unchanged
(it does not force FORMED); handX and handY always follow the callback data. -/
theorem C1_amended_callback :
    ∀ prev data : GestureData,
      (data.state = TreeState.CHAOS → (onDataUpdate prev data).state = TreeState.CHAOS) ∧
      (data.state = TreeState.FORMED → (onDataUpdate prev data).state = prev.state) ∧
      (onDataUpdate prev data).handX = data.handX ∧
      (onDataUpdate prev data).handY = data.handY := by
  intro prev data
  refine ⟨fun h => ?_, fun h => ?_, rfl, rfl⟩
  · simp [onDataUpdate, h]
  · cases data with
    | mk s x y =>
      cases s with
      | CHAOS => simp at h
      | FORMED => simp [onDataUpdate]

/-- C1 witness: concrete instantiation of the amended claim. -/
theorem C1_amended_callback_witness :
    (onDataUpdate ⟨TreeState.FORMED, 0, 0⟩ ⟨TreeState.CHAOS, 1, 0⟩).state = TreeState.CHAOS ∧
    (onDataUpdate ⟨TreeState.CHAOS, 0, 0⟩ ⟨TreeState.FORMED, 1, 0⟩).state = TreeState.CHAOS :=
  ⟨(C1_amended_callback ⟨TreeState.FORMED, 0, 0⟩ ⟨TreeState.CHAOS, 1, 0⟩).1 rfl,
   (C1_amended_callback ⟨TreeState.CHAOS, 0, 0⟩ ⟨TreeState.FORMED, 1, 0⟩).2.1 rfl⟩

/-- C8: under gesture input alone the application state never transitions
from CHAOS back to FORMED: the onData updater keeps state CHAOS whatever
gesture is delivered, and the manual toggle button is the operation that
maps CHAOS back to FORMED. -/
theorem C8_chaos_sticky :
    (∀ prev data : GestureData, prev.state = TreeState.CHAOS →
      (onDataUpdate prev data).state = TreeState.CHAOS) ∧
    (∀ g : GestureData, g.state = TreeState.CHAOS →
      (toggleSimulation g).state = TreeState.FORMED) := by
  constructor
  · intro prev data h
    cases data with
    | mk s x y =>
      cases s with
      | CHAOS => simp [onDataUpdate]
      | FORMED => simpa [onDataUpdate] using h
  · intro g h
    simp [toggleSimulation, h]

/-- C8 witness: concrete instantiation at a CHAOS state. -/
theorem C8_chaos_sticky_witness :
    (onDataUpdate ⟨TreeState.CHAOS, 0, 0⟩ ⟨TreeState.FORMED, 0, 0⟩).state = TreeState.CHAOS ∧
    (toggleSimulation ⟨TreeState.CHAOS, 0, 0⟩).state = TreeState.FORMED :=
  ⟨C8_chaos_sticky.1 ⟨TreeState.CHAOS, 0, 0⟩ ⟨TreeState.FORMED, 0, 0⟩ rfl,
   C8_chaos_sticky.2 ⟨TreeState.CHAOS, 0, 0⟩ rfl⟩

/-- C10: toggleSimulation swaps the state between FORMED and CHAOS, is an
involution, and leaves handX and handY unchanged. -/
theorem C10_toggle_involution :
    ∀ g : GestureData,
      toggleSimulation (toggleSimulation g) = g ∧
      (toggleSimulation g).handX = g.handX ∧
      (toggleSimulation g).handY = g.handY ∧
      (g.state = TreeState.FORMED → (toggleSimulation g).state = TreeState.CHAOS) ∧
      (g.state = TreeState.CHAOS → (toggleSimulation g).state = TreeState.FORMED) := by
  intro g
  cases g with
  | mk s x y =>
    cases s with
    | CHAOS => exact ⟨rfl, rfl, rfl, fun h => by simp at h, fun _ => rfl⟩
    | FORMED => exact ⟨rfl, rfl, rfl, fun _ => rfl, fun h => by simp at h⟩

/-- C10 witness: concrete instantiation of the toggle involution. -/
theorem C10_toggle_involution_witness :
    toggleSimulation (toggleSimulation ⟨TreeState.FORMED, 1, 2⟩) = ⟨TreeState.FORMED, 1, 2⟩ ∧
    (toggleSimulation ⟨TreeState.FORMED, 1, 2⟩).state = TreeState.CHAOS :=
  ⟨(C10_toggle_involution ⟨TreeState.FORMED, 1, 2⟩).1,
   (C10_toggle_involution ⟨TreeState.FORMED, 1, 2⟩).2.2.2.1 rfl⟩

/-- C4: the progress signal starts at 0 and stays in [0,1] after every
animation step; the step is prev + (target - prev) * 0.05 with target 1 for
CHAOS and 0 for FORMED, snapping exactly to target once |target - prev| <
0.001, and while the target is fixed the signal moves monotonically toward
it. -/
theorem C4_progress_signal :
    progressInit = 0 ∧
    progressTarget TreeState.CHAOS = 1 ∧
    progressTarget TreeState.FORMED = 0 ∧
    ∀ (s : TreeState) (p : ℚ), 0 ≤ p → p ≤ 1 →
      (0 ≤ progressStep (progressTarget s) p ∧ progressStep (progressTarget s) p ≤ 1) ∧
      (|progressTarget s - p| < 1/1000 →
        progressStep (progressTarget s) p = progressTarget s) ∧
      (¬ |progressTarget s - p| < 1/1000 →
        progressStep (progressTarget s) p = p + (progressTarget s - p) * (1/20)) ∧
      (p ≤ progressTarget s → p ≤ progressStep (progressTarget s) p) ∧
      (progressTarget s ≤ p → progressStep (progressTarget s) p ≤ p) := by
  refine ⟨rfl, rfl, rfl, ?_⟩
  intro s p hp0 hp1
  have htarget : progressTarget s = 1 ∨ progressTarget s = 0 := by
    cases s
    · exact Or.inl rfl
    · exact Or.inr rfl
  rcases htarget with ht | ht <;> rw [ht] <;> unfold progressStep
  · by_cases h : |(1 : ℚ) - p| < 1/1000
    · rw [if_pos h]
      refine ⟨⟨by norm_num, le_refl 1⟩, fun _ => rfl, fun hc => absurd h hc, ?_, ?_⟩
      · intro _; exact hp1
      · intro h1
        have : p = 1 := le_antisymm hp1 h1
        rw [this]
    · rw [if_neg h]
      have hd : (0 : ℚ) ≤ 1 - p := by linarith
      refine ⟨⟨by nlinarith, by nlinarith⟩, fun hc => absurd hc h, fun _ => rfl, ?_, ?_⟩
      · intro _; nlinarith
      · intro h1
        have : p = 1 := le_antisymm hp1 h1
        rw [this]; norm_num
  · by_cases h : |(0 : ℚ) - p| < 1/1000
    · rw [if_pos h]
      refine ⟨⟨le_refl 0, by norm_num⟩, fun _ => rfl, fun hc => absurd h hc, ?_, ?_⟩
      · intro h0
        have : p = 0 := le_antisymm h0 hp0
        rw [this]
      · intro _; exact hp0
    · rw [if_neg h]
      refine ⟨⟨by nlinarith, by nlinarith⟩, fun hc => absurd hc h, fun _ => rfl, ?_, ?_⟩
      · intro h0
        have : p = 0 := le_antisymm h0 hp0
        rw [this]; norm_num
      · intro _; nlinarith

/-- C4 witness: concrete instantiation at state CHAOS and progress 1/2. -/
theorem C4_progress_signal_witness :
    0 ≤ progressStep (progressTarget TreeState.CHAOS) (1/2) ∧
    progressStep (progressTarget TreeState.CHAOS) (1/2) ≤ 1 :=
  (C4_progress_signal.2.2.2 TreeState.CHAOS (1/2) (by norm_num) (by norm_num)).1

/-- 3D vector with exact rational components, embedding THREE.Vector3 and
GLSL vec3 values. -/
structure Vec3 where
  x : ℚ
  y : ℚ
  z : ℚ
deriving DecidableEq, Repr

/-- GLSL scalar mix: mix(a, b, t) = a * (1 - t) + b * t. -/
def mix (a b t : ℚ) : ℚ := a * (1 - t) + b * t

/-- THREE.Vector3.lerp(target, alpha): each component moves by
(target - current) * alpha. -/
def Vec3.lerp (v target : Vec3) (alpha : ℚ) : Vec3 :=
  { x := v.x + (target.x - v.x) * alpha,
    y := v.y + (target.y - v.y) * alpha,
    z := v.z + (target.z - v.z) * alpha }

/-- Foliage vertex shader position computation (src/index.tsx lines 213-218):
pos = mix(aTargetPos, aChaosPos, uProgress) componentwise, then
pos.x += sin(uTime * 2.0 + aRandom * 10.0) * 0.1. The trigonometric sine is
passed in as a function parameter. -/
def foliageVertexPos (sine : ℚ → ℚ) (uTime uProgress : ℚ)
    (aTargetPos aChaosPos : Vec3) (aRandom : ℚ) : Vec3 :=
  let pos : Vec3 :=
    { x := mix aTargetPos.x aChaosPos.x uProgress,
      y := mix aTargetPos.y aChaosPos.y uProgress,
      z := mix aTargetPos.z aChaosPos.z uProgress }
  let wind : ℚ := sine (uTime * 2 + aRandom * 10) * (1/10)
  { pos with x := pos.x + wind }

/-- Per-particle data of the Ornaments ensemble (src/index.tsx lines 289-304):
targetPos and chaosPos are computed once in useMemo; currentPos is the mutable
position. Scale, color and speed fields not affecting position logic are kept
only when used. -/
structure OrnamentData where
  targetPos : Vec3
  chaosPos : Vec3
  speed : ℚ
  currentPos : Vec3
deriving DecidableEq, Repr

/-- One useFrame update of one ornament (src/index.tsx lines 321-324):
dest = progress > 0.5 ? chaosPos : targetPos; currentPos.lerp(dest, speed);
if progress > 0.5 the y component additionally receives the time-dependent
bob sin(Date.now() * 0.001 + i) * 0.02, passed in as the parameter bob. -/
def ornamentFrameStep (progress : ℚ) (bob : ℚ) (d : OrnamentData) : OrnamentData :=
  let dest := if progress > 1/2 then d.chaosPos else d.targetPos
  let moved := d.currentPos.lerp dest d.speed
  let moved := if progress > 1/2 then { moved with y := moved.y + bob } else moved
  { d with currentPos := moved }

/-- Per-particle data of the Fillers ensemble (src/index.tsx lines 409-424). -/
structure FillerData where
  targetPos : Vec3
  chaosPos : Vec3
  speed : ℚ
  currentPos : Vec3
deriving DecidableEq, Repr

/-- One useFrame update of one filler (src/index.tsx lines 443-445):
dest = progress > 0.5 ? chaosPos : targetPos; currentPos.lerp(dest, speed). -/
def fillerFrameStep (progress : ℚ) (d : FillerData) : FillerData :=
  let dest := if progress > 1/2 then d.chaosPos else d.targetPos
  { d with currentPos := d.currentPos.lerp dest d.speed }

/-- C2: each foliage vertex position is mix(formedPos, chaosPos, progress)
componentwise with a time-dependent wind offset added on x only; each
ornament and filler lerps its current position toward its chaos position
when progress > 0.5 and toward its formed position when progress <= 0.5
(the ornament additionally bobs on y in the chaos regime); the frame steps
never modify the precomputed formed and chaos arrangements. -/
theorem C2_two_arrangement_interpolation :
    (∀ (sine : ℚ → ℚ) (t p : ℚ) (f c : Vec3) (r : ℚ),
      (foliageVertexPos sine t p f c r).x = mix f.x c.x p + sine (t * 2 + r * 10) * (1/10) ∧
      (foliageVertexPos sine t p f c r).y = mix f.y c.y p ∧
      (foliageVertexPos sine t p f c r).z = mix f.z c.z p) ∧
    (∀ (p bob : ℚ) (d : OrnamentData),
      (ornamentFrameStep p bob d).targetPos = d.targetPos ∧
      (ornamentFrameStep p bob d).chaosPos = d.chaosPos ∧
      (p > 1/2 →
        (ornamentFrameStep p bob d).currentPos.x = (d.currentPos.lerp d.chaosPos d.speed).x ∧
        (ornamentFrameStep p bob d).currentPos.y = (d.currentPos.lerp d.chaosPos d.speed).y + bob ∧
        (ornamentFrameStep p bob d).currentPos.z = (d.currentPos.lerp d.chaosPos d.speed).z) ∧
      (p ≤ 1/2 →
        (ornamentFrameStep p bob d).currentPos = d.currentPos.lerp d.targetPos d.speed)) ∧
    (∀ (p : ℚ) (d : FillerData),
      (fillerFrameStep p d).targetPos = d.targetPos ∧
      (fillerFrameStep p d).chaosPos = d.chaosPos ∧
      (p > 1/2 → (fillerFrameStep p d).currentPos = d.currentPos.lerp d.chaosPos d.speed) ∧
      (p ≤ 1/2 → (fillerFrameStep p d).currentPos = d.currentPos.lerp d.targetPos d.speed)) := by
  refine ⟨fun sine t p f c r => ⟨rfl, rfl, rfl⟩, fun p bob d => ?_, fun p d => ?_⟩
  · refine ⟨rfl, rfl, fun h => ?_, fun h => ?_⟩
    · have h2 : (2⁻¹ : ℚ) < p := by simpa using h
      simp [ornamentFrameStep, h2]
    · have h2 : ¬ (2⁻¹ : ℚ) < p := by simpa using not_lt.mpr h
      simp [ornamentFrameStep, h2]
  · refine ⟨rfl, rfl, fun h => ?_, fun h => ?_⟩
    · have h2 : (2⁻¹ : ℚ) < p := by simpa using h
      simp [fillerFrameStep, h2]
    · have h2 : ¬ (2⁻¹ : ℚ) < p := by simpa using not_lt.mpr h
      simp [fillerFrameStep, h2]

/-- C2 witness: concrete instantiation of the interpolation facts at
progress 1 (chaos regime) and 0 (formed regime). -/
theorem C2_two_arrangement_interpolation_witness :
    (ornamentFrameStep 1 (1/50) ⟨⟨0,0,0⟩, ⟨2,2,2⟩, 1/10, ⟨0,0,0⟩⟩).currentPos.y =
      ((⟨0,0,0⟩ : Vec3).lerp ⟨2,2,2⟩ (1/10)).y + 1/50 ∧
    (fillerFrameStep 0 ⟨⟨0,0,0⟩, ⟨2,2,2⟩, 1/10, ⟨3,3,3⟩⟩).currentPos =
      (⟨3,3,3⟩ : Vec3).lerp ⟨0,0,0⟩ (1/10) :=
  ⟨((C2_two_arrangement_interpolation.2.1 1 (1/50)
      ⟨⟨0,0,0⟩, ⟨2,2,2⟩, 1/10, ⟨0,0,0⟩⟩).2.2.1 (by norm_num)).2.1,
   (C2_two_arrangement_interpolation.2.2 0
      ⟨⟨0,0,0⟩, ⟨2,2,2⟩, 1/10, ⟨3,3,3⟩⟩).2.2.2 (by norm_num)⟩

/-- Placeholder URL for polaroid i when no photos were uploaded
(src/index.tsx line 392). -/
def placeholderUrl (i : ℕ) : String :=
  "https://picsum.photos/300/300?random=" ++ toString i

/-- Image list chosen by the Polaroids component (src/index.tsx lines 390-393):
the uploaded photos when nonempty, otherwise POLAROID_COUNT placeholder URLs. -/
def polaroidImages (photos : List String) : List String :=
  if photos.length > 0 then photos
  else (List.range POLAROID_COUNT).map placeholderUrl

/-- URLs of the POLAROID_COUNT rendered polaroid items (src/index.tsx
lines 397-399): item i gets images[i % images.length]. -/
def polaroidUrls (photos : List String) : List String :=
  (List.range POLAROID_COUNT).map
    (fun i => (polaroidImages photos).getD (i % (polaroidImages photos).length) "")

/-- App.handleFileChange (src/index.tsx lines 605-615): with no selected files
customPhotos is left unchanged; otherwise every selected file is read as a
data URL (the FileReader is passed in as the function dataURL) and
customPhotos becomes the resulting list, in selection order. -/
def handleFileChange (dataURL : String → String) (files : List String)
    (customPhotos : List String) : List String :=
  if files.isEmpty then customPhotos else files.map dataURL

/-- C6: after a successful upload of k >= 1 files, customPhotos is exactly the
list of their data URLs in selection order; exactly POLAROID_COUNT = 30
polaroid items are rendered regardless of k and polaroid i displays uploaded
photo i mod k; with no uploaded photos each of the 30 polaroids displays a
distinct placeholder URL indexed by its position. -/
theorem C6_polaroid_photos :
    (∀ (dataURL : String → String) (files prev : List String), files ≠ [] →
      handleFileChange dataURL files prev = files.map dataURL) ∧
    (∀ photos : List String, (polaroidUrls photos).length = POLAROID_COUNT) ∧
    (∀ (photos : List String), 1 ≤ photos.length →
      ∀ i, i < POLAROID_COUNT →
        (polaroidUrls photos).getD i "" = photos.getD (i % photos.length) "") ∧
    (∀ i, i < POLAROID_COUNT → (polaroidUrls []).getD i "" = placeholderUrl i) ∧
    (polaroidUrls []).Pairwise (fun a b => a ≠ b) := by
  refine ⟨?_, ?_, ?_, ?_, ?_⟩
  · intro dataURL files prev hne
    simp [handleFileChange, List.isEmpty_iff, hne]
  · intro photos
    simp [polaroidUrls]
  · intro photos hk i hi
    have h0 : 0 < photos.length := hk
    have himg : polaroidImages photos = photos := by
      simp [polaroidImages, h0]
    have hlen : (polaroidUrls photos).length = POLAROID_COUNT := by
      simp [polaroidUrls]
    have hib : i < (polaroidUrls photos).length := by
      rw [hlen]; exact hi
    rw [List.getD_eq_getElem _ _ hib]
    simp only [polaroidUrls, List.getElem_map, List.getElem_range, himg]
  · decide
  · decide

/-- C6 witness: concrete instantiation with two uploaded photos. -/
theorem C6_polaroid_photos_witness :
    handleFileChange (fun s => "data:" ++ s) ["a", "b"] [] = ["data:a", "data:b"] ∧
    (polaroidUrls ["pa", "pb"]).getD 3 "" = "pb" ∧
    (polaroidUrls []).getD 7 "" = placeholderUrl 7 :=
  ⟨by
      have h := C6_polaroid_photos.1 (fun s => "data:" ++ s) ["a", "b"] []
        (by simp)
      simpa using h,
   by
      have h := C6_polaroid_photos.2.2.1 ["pa", "pb"] (by simp) 3 (by decide)
      simpa using h,
   C6_polaroid_photos.2.2.2.1 7 (by decide)⟩

/-- JSON value as produced by a successful JSON.parse. -/
inductive Json where
  | null : Json
  | bool : Bool → Json
  | num : ℚ → Json
  | str : String → Json
  | arr : List Json → Json
  | obj : List (String × Json) → Json

/-- Value of the property access json.key for non-null parsed JSON: a field
lookup on an object, undefined (none) on booleans, numbers, strings and
arrays (primitives are autoboxed in JS, so access succeeds). -/
def Json.fieldD : Json → String → Option Json
  | Json.obj fields, key => fields.lookup key
  | _, _ => none

/-- Property access json.key in JS on a parsed JSON value: accessing a
property of null throws a TypeError (Except.error); access on every other
parsed value succeeds and yields Json.fieldD. -/
def Json.getField (j : Json) (key : String) : Except Unit (Option Json) :=
  match j with
  | Json.null => Except.error ()
  | _ => Except.ok (j.fieldD key)

/-- Construction of the GestureData delivered to onData from a parsed JSON
value (src/index.tsx lines 110-114 and 174-178, identical in both modes):
state = json.state === CHAOS ? CHAOS : FORMED; handX = typeof json.x ===
number ? json.x : 0; likewise handY from json.y. Each property access can
throw (when the parsed value is null); the throw propagates to the enclosing
try/catch of the message or polling handler, so no gesture is produced. -/
def gestureOfJson (j : Json) : Except Unit GestureData := do
  let st ← j.getField "state"
  let jx ← j.getField "x"
  let jy ← j.getField "y"
  Except.ok
    { state := match st with
        | some (Json.str s) =>
          if s = "CHAOS" then TreeState.CHAOS else TreeState.FORMED
        | _ => TreeState.FORMED,
      handX := match jx with
        | some (Json.num q) => q
        | _ => 0,
      handY := match jy with
        | some (Json.num q) => q
        | _ => 0 }

/-- Handling of one text part in the live streaming onmessage callback
(src/index.tsx lines 105-117): the regex match extracting a brace-delimited
substring and JSON.parse are passed in as functions returning none on
failure; a throw inside the try (a failing JSON.parse, or the TypeError from
property access on a parsed null) is caught and swallowed; the callback is
invoked exactly when the result is some. -/
def handleLiveText (parseJson : String → Option Json)
    (extractBraces : String → Option String) (text : String) : Option GestureData :=
  match extractBraces text with
  | none => none
  | some s =>
    match parseJson s with
    | none => none
    | some j =>
      match gestureOfJson j with
      | Except.error _ => none
      | Except.ok d => some d

/-- Handling of one response text in the polling fallback (src/index.tsx
lines 172-180): JSON.parse applied directly to the response text; a throw
inside the try (a failing parse, or the TypeError from property access on a
parsed null) is caught and logged; the callback is invoked exactly when the
result is some. -/
def handlePollText (parseJson : String → Option Json) (text : String) :
    Option GestureData :=
  match parseJson text with
  | none => none
  | some j =>
    match gestureOfJson j with
    | Except.error _ => none
    | Except.ok d => some d

theorem gestureOfJson_ok (j : Json) (h : j ≠ Json.null) :
    gestureOfJson j = Except.ok
      { state := match j.fieldD "state" with
          | some (Json.str s) =>
            if s = "CHAOS" then TreeState.CHAOS else TreeState.FORMED
          | _ => TreeState.FORMED,
        handX := match j.fieldD "x" with
          | some (Json.num q) => q
          | _ => 0,
        handY := match j.fieldD "y" with
          | some (Json.num q) => q
          | _ => 0 } := by
  cases j with
  | null => exact absurd rfl h
  | bool b => rfl
  | num q => rfl
  | str s => rfl
  | arr l => rfl
  | obj fs => rfl

theorem gestureOfJson_spec (j : Json) (d : GestureData)
    (hd : gestureOfJson j = Except.ok d) :
    j ≠ Json.null ∧
    j.getField "state" = Except.ok (j.fieldD "state") ∧
    j.getField "x" = Except.ok (j.fieldD "x") ∧
    j.getField "y" = Except.ok (j.fieldD "y") ∧
    d = { state := match j.fieldD "state" with
            | some (Json.str s) =>
              if s = "CHAOS" then TreeState.CHAOS else TreeState.FORMED
            | _ => TreeState.FORMED,
          handX := match j.fieldD "x" with
            | some (Json.num q) => q
            | _ => 0,
          handY := match j.fieldD "y" with
            | some (Json.num q) => q
            | _ => 0 } := by
  have hne : j ≠ Json.null := by
    intro hh
    subst hh
    rw [show gestureOfJson Json.null = Except.error () from rfl] at hd
    exact Except.noConfusion hd
  have hgf : ∀ k : String, j.getField k = Except.ok (j.fieldD k) := by
    intro k
    cases j with
    | null => exact absurd rfl hne
    | bool b => rfl
    | num q => rfl
    | str s => rfl
    | arr l => rfl
    | obj fs => rfl
  have hok := gestureOfJson_ok j hne
  rw [hok] at hd
  injection hd with hdd
  exact ⟨hne, hgf "state", hgf "x", hgf "y", hdd.symm⟩

/-- C9 counterexample: the claim that a payload containing no parseable JSON
object produces no callback invocation is false on the code: in polling mode
a payload whose parsed JSON is the number 5 (no JSON object in the payload)
still invokes the callback, with FORMED and 0/0, because property access on
a number is undefined in JS rather than a throw, so the construction in the
try block succeeds. -/
theorem C9_counterexample :
    ¬ (∀ (parseJson : String → Option Json) (text : String) (j : Json),
        parseJson text = some j → (∀ fs, j ≠ Json.obj fs) →
        handlePollText parseJson text = none) := by
  intro h
  have h5 := h (fun t => if t = "5" then some (Json.num 5) else none) "5" (Json.num 5)
    (by simp) (fun fs => by simp)
  have hval : handlePollText (fun t => if t = "5" then some (Json.num 5) else none) "5" =
      some { state := TreeState.FORMED, handX := 0, handY := 0 } := rfl
  rw [hval] at h5
  exact Option.noConfusion h5

/-- C9 (amended): for every text payload, in streaming or polling mode, a
delivered callback has state CHAOS iff the parsed JSON's state field is
exactly the string CHAOS (any other shape or a missing field yields FORMED),
and handX/handY equal to the JSON's x/y when those are numbers and 0
otherwise; a payload with no extractable or parseable JSON produces no
callback, and a payload parsing to JSON null also produces no callback (the
TypeError thrown by the property access on null is caught and swallowed);
but every other successfully parsed value, JSON object or not, does produce
a callback; no handler lets an exception escape. -/
theorem C9_amended_payload_parsing :
    ∀ (parseJson : String → Option Json) (extractBraces : String → Option String)
      (text s : String) (j : Json) (d : GestureData),
      (extractBraces text = none → handleLiveText parseJson extractBraces text = none) ∧
      (extractBraces text = some s → parseJson s = none →
        handleLiveText parseJson extractBraces text = none) ∧
      (extractBraces text = some s → parseJson s = some Json.null →
        handleLiveText parseJson extractBraces text = none) ∧
      (extractBraces text = some s → parseJson s = some j →
        gestureOfJson j = Except.ok d →
        handleLiveText parseJson extractBraces text = some d) ∧
      (parseJson text = none → handlePollText parseJson text = none) ∧
      (parseJson text = some Json.null → handlePollText parseJson text = none) ∧
      (parseJson text = some j → gestureOfJson j = Except.ok d →
        handlePollText parseJson text = some d) ∧
      (gestureOfJson Json.null = Except.error ()) ∧
      (j ≠ Json.null → ∃ d0, gestureOfJson j = Except.ok d0) ∧
      (gestureOfJson j = Except.ok d →
        (d.state = TreeState.CHAOS ↔
          j.getField "state" = Except.ok (some (Json.str "CHAOS")))) ∧
      (∀ q : ℚ, gestureOfJson j = Except.ok d →
        j.getField "x" = Except.ok (some (Json.num q)) → d.handX = q) ∧
      (gestureOfJson j = Except.ok d →
        (∀ q : ℚ, j.getField "x" ≠ Except.ok (some (Json.num q))) → d.handX = 0) ∧
      (∀ q : ℚ, gestureOfJson j = Except.ok d →
        j.getField "y" = Except.ok (some (Json.num q)) → d.handY = q) ∧
      (gestureOfJson j = Except.ok d →
        (∀ q : ℚ, j.getField "y" ≠ Except.ok (some (Json.num q))) → d.handY = 0) := by
  intro parseJson extractBraces text s j d
  have hnull : gestureOfJson Json.null = Except.error () := rfl
  refine ⟨fun h => ?_, fun h1 h2 => ?_, fun h1 h2 => ?_, fun h1 h2 h3 => ?_,
    fun h => ?_, fun h => ?_, fun h1 h2 => ?_, hnull, fun h => ?_,
    fun hd => ?_, fun q hd hq => ?_, fun hd hq => ?_, fun q hd hq => ?_,
    fun hd hq => ?_⟩
  · simp [handleLiveText, h]
  · simp [handleLiveText, h1, h2]
  · simp [handleLiveText, h1, h2, hnull]
  · simp [handleLiveText, h1, h2, h3]
  · simp [handlePollText, h]
  · simp [handlePollText, h, hnull]
  · simp [handlePollText, h1, h2]
  · exact ⟨_, gestureOfJson_ok j h⟩
  · obtain ⟨hne, hst, hx2, hy2, hdd⟩ := gestureOfJson_spec j d hd
    subst hdd
    rw [hst]
    cases hv : j.fieldD "state" with
    | none => simp [hv]
    | some v =>
      cases v with
      | str sv =>
        by_cases hsv : sv = "CHAOS"
        · subst hsv
          simp [hv]
        · simp [hv, hsv]
      | null => simp [hv]
      | bool b => simp [hv]
      | num q => simp [hv]
      | arr l => simp [hv]
      | obj fs => simp [hv]
  · obtain ⟨hne, hst, hx2, hy2, hdd⟩ := gestureOfJson_spec j d hd
    subst hdd
    rw [hx2] at hq
    have hfd : j.fieldD "x" = some (Json.num q) := by
      injection hq with hq2
    simp [hfd]
  · obtain ⟨hne, hst, hx2, hy2, hdd⟩ := gestureOfJson_spec j d hd
    subst hdd
    cases hv : j.fieldD "x" with
    | none => simp [hv]
    | some v =>
      cases v with
      | num q =>
        exact absurd (by rw [hx2, hv]) (hq q)
      | null => simp [hv]
      | bool b => simp [hv]
      | str sv => simp [hv]
      | arr l => simp [hv]
      | obj fs => simp [hv]
  · obtain ⟨hne, hst, hx2, hy2, hdd⟩ := gestureOfJson_spec j d hd
    subst hdd
    rw [hy2] at hq
    have hfd : j.fieldD "y" = some (Json.num q) := by
      injection hq with hq2
    simp [hfd]
  · obtain ⟨hne, hst, hx2, hy2, hdd⟩ := gestureOfJson_spec j d hd
    subst hdd
    cases hv : j.fieldD "y" with
    | none => simp [hv]
    | some v =>
      cases v with
      | num q =>
        exact absurd (by rw [hy2, hv]) (hq q)
      | null => simp [hv]
      | bool b => simp [hv]
      | str sv => simp [hv]
      | arr l => simp [hv]
      | obj fs => simp [hv]

/-- C9 witness: concrete instantiations of the amended claim: a CHAOS object
payload delivers a CHAOS gesture with the numeric x, and a payload parsing
to JSON null delivers nothing. -/
theorem C9_amended_payload_parsing_witness :
    handlePollText
      (fun t => if t = "ok" then
          some (Json.obj [("state", Json.str "CHAOS"), ("x", Json.num (1/2))])
        else none) "ok" =
      some { state := TreeState.CHAOS, handX := 1/2, handY := 0 } ∧
    handlePollText (fun _ => some Json.null) "nul" = none :=
  ⟨(C9_amended_payload_parsing
      (fun t => if t = "ok" then
          some (Json.obj [("state", Json.str "CHAOS"), ("x", Json.num (1/2))])
        else none) (fun _ => none) "ok" ""
      (Json.obj [("state", Json.str "CHAOS"), ("x", Json.num (1/2))])
      { state := TreeState.CHAOS, handX := 1/2, handY := 0 }).2.2.2.2.2.2.1
      (by simp) rfl,
   (C9_amended_payload_parsing (fun _ => some Json.null) (fun _ => none) "nul" ""
      Json.null { state := TreeState.FORMED, handX := 0, handY := 0 }).2.2.2.2.2.1 rfl⟩

/-- Kind of interval timer installed by the service. -/
inductive TimerKind where
  | streaming : TimerKind
  | polling : TimerKind
deriving DecidableEq, Repr

/-- An active window interval timer: id and period in milliseconds. -/
structure Timer where
  id : ℕ
  kind : TimerKind
  periodMs : ℕ
deriving DecidableEq, Repr

/-- State of GeminiLiveService together with the browser interval-timer
environment (src/index.tsx lines 54-191): session, intervalId,
isFallbackActive and ai (aiSet) are the service fields; activeTimers are
the currently installed interval timers; nextId generates fresh timer
ids. -/
structure SvcState where
  session : Bool
  intervalId : Option ℕ
  isFallbackActive : Bool
  aiSet : Bool
  activeTimers : List Timer
  nextId : ℕ
deriving DecidableEq, Repr

/-- Initial service state after the constructor (src/index.tsx lines
55-65). -/
def initSvc : SvcState :=
  { session := false, intervalId := none, isFallbackActive := false,
    aiSet := false, activeTimers := [], nextId := 0 }

/-- Embedding of window.setInterval: installs a fresh timer and stores its id
in the service's intervalId field. -/
def setIntervalSvc (s : SvcState) (k : TimerKind) (period : ℕ) : SvcState :=
  { s with intervalId := some s.nextId,
           activeTimers := s.activeTimers ++ [⟨s.nextId, k, period⟩],
           nextId := s.nextId + 1 }

/-- Embedding of window.clearInterval i: removes the timer with id i. -/
def clearIntervalSvc (timers : List Timer) (i : ℕ) : List Timer :=
  timers.filter (fun t => t.id ≠ i)

/-- GeminiLiveService.startStreamingLive (src/index.tsx lines 142-157):
installs the 800 ms streaming interval. -/
def startStreamingLive (s : SvcState) : SvcState :=
  setIntervalSvc s TimerKind.streaming 800

/-- GeminiLiveService.startPollingFallback (src/index.tsx lines 159-182):
installs the 1500 ms polling interval; each tick sends one captured frame
through ai.models.generateContent and hands the response text to the
handling embedded as handlePollText. -/
def startPollingFallback (s : SvcState) : SvcState :=
  setIntervalSvc s TimerKind.polling 1500

/-- GeminiLiveService.switchToFallback (src/index.tsx lines 134-140): no-op
when fallback is already active; otherwise sets the flag, cancels the stored
interval and nulls intervalId, closes and nulls the session, then starts the
polling fallback. -/
def switchToFallback (s : SvcState) : SvcState :=
  if s.isFallbackActive then s
  else
    let s1 : SvcState := { s with isFallbackActive := true }
    let s2 : SvcState :=
      match s1.intervalId with
      | some i => { s1 with activeTimers := clearIntervalSvc s1.activeTimers i,
                            intervalId := none }
      | none => s1
    let s3 : SvcState := { s2 with session := false }
    startPollingFallback s3

/-- GeminiLiveService.disconnect (src/index.tsx lines 184-190): resets the
fallback flag, cancels the stored interval (the stale id stays in
intervalId), closes the session and nulls session and ai. -/
def disconnect (s : SvcState) : SvcState :=
  let s1 : SvcState := { s with isFallbackActive := false }
  let s2 : SvcState :=
    match s1.intervalId with
    | some i => { s1 with activeTimers := clearIntervalSvc s1.activeTimers i }
    | none => s1
  { s2 with session := false, aiSet := false }

/-- External events driving the service: the connect call resolving with a
session or throwing, the session's onopen and onerror callbacks, and the
disconnect call. -/
inductive SvcEvent where
  | connectOk : SvcEvent
  | connectFail : SvcEvent
  | onOpen : SvcEvent
  | onError : SvcEvent
  | disconnectCall : SvcEvent
deriving DecidableEq, Repr

/-- Effect of each event (src/index.tsx lines 67-131 for connect and the
session callbacks, 184-190 for disconnect). connect first assigns ai and
resets isFallbackActive; on success the session is held, on a thrown
connection the catch runs switchToFallback. -/
def svcStep (s : SvcState) : SvcEvent → SvcState
  | SvcEvent.connectOk =>
    { s with aiSet := true, isFallbackActive := false, session := true }
  | SvcEvent.connectFail =>
    switchToFallback { s with aiSet := true, isFallbackActive := false }
  | SvcEvent.onOpen => startStreamingLive s
  | SvcEvent.onError => switchToFallback s
  | SvcEvent.disconnectCall => disconnect s

/-- Environmental soundness of an event in a state: App calls connect exactly
once, on the fresh service; a session's onopen fires once for the session
that was just connected, before any streaming interval was installed and
before any fallback. onerror and disconnect can fire at any point. -/
def eventOk (s : SvcState) : SvcEvent → Prop
  | SvcEvent.connectOk => s.intervalId = none ∧ s.activeTimers = []
  | SvcEvent.connectFail => s.intervalId = none ∧ s.activeTimers = []
  | SvcEvent.onOpen =>
    s.session = true ∧ s.isFallbackActive = false ∧ s.intervalId = none
  | SvcEvent.onError => True
  | SvcEvent.disconnectCall => True

/-- States reachable along the service's lifetime. -/
inductive Reach : SvcState → Prop where
  | init : Reach initSvc
  | step (s : SvcState) (e : SvcEvent) : Reach s → eventOk s e → Reach (svcStep s e)

/-- Timer bookkeeping invariant: every installed timer carries the stored
intervalId, ids are below nextId, and at most one timer is active. -/
def TimerInv (s : SvcState) : Prop :=
  (∀ t ∈ s.activeTimers, s.intervalId = some t.id) ∧
  (∀ t ∈ s.activeTimers, t.id < s.nextId) ∧
  s.activeTimers.length ≤ 1

theorem clearIntervalSvc_eq_nil (l : List Timer) (i : ℕ)
    (h : ∀ t ∈ l, t.id = i) : clearIntervalSvc l i = [] := by
  unfold clearIntervalSvc
  rw [List.filter_eq_nil_iff]
  intro t ht
  simp [h t ht]

theorem timers_nil_of_intervalId_none (s : SvcState)
    (h1 : ∀ t ∈ s.activeTimers, s.intervalId = some t.id)
    (hn : s.intervalId = none) : s.activeTimers = [] := by
  cases hA : s.activeTimers with
  | nil => rfl
  | cons a l =>
    have := h1 a (by simp [hA])
    rw [hn] at this
    exact absurd this (by simp)

theorem disconnect_clears (s : SvcState)
    (h1 : ∀ t ∈ s.activeTimers, s.intervalId = some t.id) :
    (disconnect s).activeTimers = [] := by
  unfold disconnect
  cases hi : s.intervalId with
  | none =>
    simp only [hi]
    exact timers_nil_of_intervalId_none s h1 hi
  | some i =>
    simp only [hi]
    exact clearIntervalSvc_eq_nil _ _ (fun t ht => by
      have := h1 t ht
      rw [hi] at this
      exact (Option.some_injective _ this).symm)

theorem switchToFallback_inv (s : SvcState) (h : TimerInv s) :
    TimerInv (switchToFallback s) := by
  obtain ⟨h1, h2, h3⟩ := h
  unfold switchToFallback
  by_cases hf : s.isFallbackActive
  · simp only [hf, if_true]
    exact ⟨h1, h2, h3⟩
  · simp only [hf, if_false, Bool.false_eq_true]
    cases hi : s.intervalId with
    | none =>
      have hnil := timers_nil_of_intervalId_none s h1 hi
      refine ⟨?_, ?_, ?_⟩ <;>
        simp [startPollingFallback, setIntervalSvc, hnil]
    | some i =>
      have hnil : clearIntervalSvc s.activeTimers i = [] :=
        clearIntervalSvc_eq_nil _ _ (fun t ht => by
          have := h1 t ht
          rw [hi] at this
          exact (Option.some_injective _ this).symm)
      refine ⟨?_, ?_, ?_⟩ <;>
        simp [startPollingFallback, setIntervalSvc, hnil]

theorem reach_timerInv (s : SvcState) (hs : Reach s) : TimerInv s := by
  induction hs with
  | init => exact ⟨by simp [initSvc], by simp [initSvc], by simp [initSvc]⟩
  | step s e hr hok ih =>
    obtain ⟨h1, h2, h3⟩ := ih
    cases e with
    | connectOk =>
      obtain ⟨hi, ht⟩ := hok
      refine ⟨?_, ?_, ?_⟩ <;> simp [svcStep, ht]
    | connectFail =>
      obtain ⟨hi, ht⟩ := hok
      exact switchToFallback_inv _ ⟨by simp [ht], by simp [ht], by simp [ht]⟩
    | onOpen =>
      obtain ⟨hsess, hfb, hi⟩ := hok
      have hnil := timers_nil_of_intervalId_none s h1 hi
      refine ⟨?_, ?_, ?_⟩ <;>
        simp [svcStep, startStreamingLive, setIntervalSvc, hnil]
    | onError =>
      exact switchToFallback_inv s ⟨h1, h2, h3⟩
    | disconnectCall =>
      have hnil := disconnect_clears s h1
      refine ⟨?_, ?_, ?_⟩ <;> simp [svcStep, hnil]

/-- C3: when the live connection fails to open or the open session reports an
error, the service downgrades to polling: both events run switchToFallback,
which closes the live session, cancels the stored streaming interval timer,
and installs the 1500 ms polling interval whose tick sends a single captured
frame via generateContent and forwards the parsed result, whenever its
construction from the response JSON succeeds, to the same onData callback
(the handling embedded as handlePollText). -/
theorem C3_fallback_downgrade :
    ∀ s : SvcState, s.isFallbackActive = false →
      (∀ u ∈ s.activeTimers, u.id < s.nextId) →
      (svcStep s SvcEvent.onError = switchToFallback s) ∧
      (∀ s0 : SvcState, svcStep s0 SvcEvent.connectFail =
        switchToFallback { s0 with aiSet := true, isFallbackActive := false }) ∧
      (switchToFallback s).session = false ∧
      (switchToFallback s).isFallbackActive = true ∧
      (∀ t ∈ s.activeTimers, s.intervalId = some t.id →
        t ∉ (switchToFallback s).activeTimers) ∧
      (switchToFallback s).intervalId = some s.nextId ∧
      (⟨s.nextId, TimerKind.polling, 1500⟩ : Timer) ∈ (switchToFallback s).activeTimers ∧
      (∀ (parseJson : String → Option Json) (text : String) (j : Json) (d : GestureData),
        parseJson text = some j → gestureOfJson j = Except.ok d →
        handlePollText parseJson text = some d) := by
  intro s hf hfresh
  have hswitch : switchToFallback s =
      startPollingFallback
        { (match ({ s with isFallbackActive := true } : SvcState).intervalId with
           | some i =>
             { ({ s with isFallbackActive := true } : SvcState) with
               activeTimers :=
                 clearIntervalSvc
                   ({ s with isFallbackActive := true } : SvcState).activeTimers i,
               intervalId := none }
           | none => ({ s with isFallbackActive := true } : SvcState)) with
          session := false } := by
    unfold switchToFallback
    simp [hf]
  refine ⟨rfl, fun s0 => rfl, ?_, ?_, ?_, ?_, ?_, ?_⟩
  · rw [hswitch]
    cases hi : s.intervalId <;>
      simp [hi, startPollingFallback, setIntervalSvc]
  · rw [hswitch]
    cases hi : s.intervalId <;>
      simp [hi, startPollingFallback, setIntervalSvc]
  · intro t ht hid
    rw [hswitch]
    cases hi : s.intervalId with
    | none => rw [hi] at hid; exact absurd hid (by simp)
    | some i =>
      rw [hi] at hid
      have hti : t.id = i := (Option.some_injective _ hid).symm
      simp only [hi, startPollingFallback, setIntervalSvc, List.mem_append,
        List.mem_singleton]
      intro hmem
      rcases hmem with hmem | hmem
      · have := List.of_mem_filter hmem
        simp [hti] at this
      · have hlt := hfresh t ht
        rw [hmem] at hlt
        simp at hlt
  · rw [hswitch]
    cases hi : s.intervalId <;>
      simp [hi, startPollingFallback, setIntervalSvc]
  · rw [hswitch]
    cases hi : s.intervalId <;>
      simp [hi, startPollingFallback, setIntervalSvc]
  · intro parseJson text j d hj hd
    simp [handlePollText, hj, hd]

/-- C3 witness: concrete instantiation on the state right after a successful
connect from the initial state. -/
theorem C3_fallback_downgrade_witness :
    (switchToFallback ⟨true, none, false, true, [], 0⟩).session = false ∧
    (switchToFallback ⟨true, none, false, true, [], 0⟩).intervalId = some 0 ∧
    (⟨0, TimerKind.polling, 1500⟩ : Timer) ∈
      (switchToFallback ⟨true, none, false, true, [], 0⟩).activeTimers :=
  ⟨(C3_fallback_downgrade ⟨true, none, false, true, [], 0⟩ rfl (by simp)).2.2.1,
   (C3_fallback_downgrade ⟨true, none, false, true, [], 0⟩ rfl (by simp)).2.2.2.2.2.1,
   (C3_fallback_downgrade ⟨true, none, false, true, [], 0⟩ rfl (by simp)).2.2.2.2.2.2.1⟩

/-- C7: at every point of the service's lifetime at most one interval timer
is active; a second invocation of switchToFallback while fallback is active
is a no-op (a second error never starts a second polling loop); disconnect
cancels whichever timer is running and nulls the session and the ai
client. -/
theorem C7_single_timer :
    (∀ s : SvcState, Reach s → s.activeTimers.length ≤ 1) ∧
    (∀ s : SvcState, s.isFallbackActive = true → switchToFallback s = s) ∧
    (∀ s : SvcState, Reach s →
      (disconnect s).activeTimers = [] ∧ (disconnect s).session = false ∧
      (disconnect s).aiSet = false) := by
  refine ⟨?_, ?_, ?_⟩
  · intro s hs
    exact (reach_timerInv s hs).2.2
  · intro s hf
    unfold switchToFallback
    simp [hf]
  · intro s hs
    refine ⟨disconnect_clears s (reach_timerInv s hs).1, ?_, ?_⟩ <;>
      unfold disconnect <;> cases hi : s.intervalId <;> simp [hi]

/-- C7 witness: concrete instantiation along the lifecycle connect, onopen,
showing the streaming state holds at most one timer, and disconnect from the
initial state. -/
theorem C7_single_timer_witness :
    (svcStep (svcStep initSvc SvcEvent.connectOk) SvcEvent.onOpen).activeTimers.length ≤ 1 ∧
    switchToFallback ⟨false, some 0, true, true, [⟨0, TimerKind.polling, 1500⟩], 1⟩ =
      ⟨false, some 0, true, true, [⟨0, TimerKind.polling, 1500⟩], 1⟩ ∧
    (disconnect initSvc).activeTimers = [] ∧ (disconnect initSvc).aiSet = false :=
  ⟨C7_single_timer.1 _
      (Reach.step _ SvcEvent.onOpen
        (Reach.step _ SvcEvent.connectOk Reach.init ⟨rfl, rfl⟩) ⟨rfl, rfl, rfl⟩),
   C7_single_timer.2.1 ⟨false, some 0, true, true, [⟨0, TimerKind.polling, 1500⟩], 1⟩ rfl,
   (C7_single_timer.2.2 initSvc Reach.init).1,
   (C7_single_timer.2.2 initSvc Reach.init).2.2⟩

end Tree5
